import Mathlib

/-!
Shallow embedding of the water-surface engine of
GG1-C2-Rendering-Water-Caustics: the `Water` object of
`src/objects/water.cpp` / `src/objects/water.h` (wave set construction,
surface evaluation, mesh building and updating, the draw layout) and the
two textures built in `Kernel::start` of `src/kernel/kernel.cpp`.

Machine floats are modelled as real numbers; C's cast of a floating value
to `int` is modelled as truncation toward zero (`rtrunc`), and the further
narrowing of an integer to `unsigned char` as reduction modulo 256, which
is what the integer conversion rules of C prescribe.  `rand()` is modelled
by a stream `u : ℕ → ℝ` of draws, the k-th call returning `u k`, with
`0 ≤ u k ≤ RAND_MAX` as the libc contract.
-/

namespace GG1C2

/-- `RAND_MAX` of the C library (the common 31-bit value). -/
def RAND_MAX : ℝ := 2147483647

/-- `#define MAXFREQ 1.0f` of `water.h`. -/
def MAXFREQ : ℝ := 1

/-- `#define MAXSPED 0.005f` of `water.h`. -/
noncomputable def MAXSPED : ℝ := 1 / 200

/-- `randFloat` of `water.cpp`: `(float)rand() / ((float)RAND_MAX / x)`,
with `r` the value the call to `rand()` returned. -/
noncomputable def randFloat (r x : ℝ) : ℝ := r / (RAND_MAX / x)

/-- The state of a `Water` object: the constructor-initialized scalar
fields, the four parallel wave-parameter vectors, the CPU-side `vertices`
and `indices` vectors, and the contents of the GPU buffers the object owns
(`vboData` for the `GL_ARRAY_BUFFER`, `eboData` for the
`GL_ELEMENT_ARRAY_BUFFER`). -/
structure Water where
  pX : ℤ
  pZ : ℤ
  pW : ℤ
  pL : ℤ
  pDimX : ℕ
  pDimZ : ℕ
  maxA : ℝ
  maxI : ℕ
  directional : Bool
  rounded : Bool
  animated : Bool
  internalTime : ℝ
  Ai : List ℝ
  wi : List ℝ
  Di : List (ℝ × ℝ)
  Si : List ℝ
  vertices : List ℝ
  indices : List ℕ
  vboData : List ℝ
  eboData : List ℕ

/-- `Water::W`: the wave basis equation
`A * sin(dot(D, (x, y)) * w + S * w * t)` in the directional/rounded mode.
The source has no `return` on the other path (undefined behavior there);
that branch is modelled as 0 and is never relied upon. -/
noncomputable def W (wa : Water) (i : ℕ) (x y t : ℝ) : ℝ :=
  let A := wa.Ai.getD i 0
  let w := wa.wi.getD i 0
  let D := wa.Di.getD i (0, 0)
  let S := wa.Si.getD i 0
  if wa.directional && wa.rounded then
    A * Real.sin ((D.1 * x + D.2 * y) * w + S * w * t)
  else 0

/-- `Water::H`: sum of `W i` for `i = 0 .. maxI - 1`. -/
noncomputable def H (wa : Water) (x y t : ℝ) : ℝ :=
  ((List.range wa.maxI).map (fun i => W wa i x y t)).sum

/-- `Water::ddxW`: `w * D.x * A * cos(dot(D, (x, y)) * w + S * w * t)`. -/
noncomputable def ddxW (wa : Water) (i : ℕ) (x y t : ℝ) : ℝ :=
  let A := wa.Ai.getD i 0
  let w := wa.wi.getD i 0
  let D := wa.Di.getD i (0, 0)
  let S := wa.Si.getD i 0
  if wa.directional && wa.rounded then
    w * D.1 * A * Real.cos ((D.1 * x + D.2 * y) * w + S * w * t)
  else 0

/-- `Water::ddxH`: sum of `ddxW i` for `i = 0 .. maxI - 1`. -/
noncomputable def ddxH (wa : Water) (x y t : ℝ) : ℝ :=
  ((List.range wa.maxI).map (fun i => ddxW wa i x y t)).sum

/-- `Water::ddyW`: `w * D.y * A * cos(dot(D, (x, y)) * w + S * w * t)`. -/
noncomputable def ddyW (wa : Water) (i : ℕ) (x y t : ℝ) : ℝ :=
  let A := wa.Ai.getD i 0
  let w := wa.wi.getD i 0
  let D := wa.Di.getD i (0, 0)
  let S := wa.Si.getD i 0
  if wa.directional && wa.rounded then
    w * D.2 * A * Real.cos ((D.1 * x + D.2 * y) * w + S * w * t)
  else 0

/-- `Water::ddyH`: sum of `ddyW i` for `i = 0 .. maxI - 1`. -/
noncomputable def ddyH (wa : Water) (x y t : ℝ) : ℝ :=
  ((List.range wa.maxI).map (fun i => ddyW wa i x y t)).sum

/-- `Water::N`: the (unnormalized) surface normal
`(0 - ddxH, 0 - ddyH, 1)`. -/
noncomputable def N (wa : Water) (x y t : ℝ) : ℝ × ℝ × ℝ :=
  (0 - ddxH wa x y t, 0 - ddyH wa x y t, 1)

/-- The world coordinate of grid line `i`, as both `Water::setupMesh` /
`Water::updateMesh` and `Kernel::start` compute it:
`p - w / 2 + (float)i * w / dim`, where `p - w / 2` is C **integer**
arithmetic (`Int.tdiv` is C's truncating division) and the rest is float
arithmetic. -/
noncomputable def sampleX (p w : ℤ) (dim i : ℕ) : ℝ :=
  ((p - Int.tdiv w 2 : ℤ) : ℝ) + (i : ℝ) * (w : ℝ) / (dim : ℝ)

/-- The six floats `Water::setupMesh` / `Water::updateMesh` push for grid
sample `(i, j)`: position `x, H(x,z,t), z` then normal
`N.x, N.y, N.z`, at the object's current `internalTime`. -/
noncomputable def vertexFloats (wa : Water) (i j : ℕ) : List ℝ :=
  let x := sampleX wa.pX wa.pW wa.pDimX i
  let z := sampleX wa.pZ wa.pL wa.pDimZ j
  [x, H wa x z wa.internalTime, z,
   (N wa x z wa.internalTime).1, (N wa x z wa.internalTime).2.1,
   (N wa x z wa.internalTime).2.2]

/-- The vertex data `Water::setupMesh` / `Water::updateMesh` push, in loop
order: for each `i < pDimX`, for each `j < pDimZ`, the six floats of
`vertexFloats`. -/
noncomputable def meshVertices (wa : Water) : List ℝ :=
  (List.range wa.pDimX).flatMap (fun i =>
    (List.range wa.pDimZ).flatMap (fun j => vertexFloats wa i j))

/-- The index data `Water::setupMesh` pushes: for each `i < pDimZ - 1`,
for each `j < pDimX`, for `k = 0, 1`, the index `j + pDimX * (i + k)`. -/
def meshIndices (dimX dimZ : ℕ) : List ℕ :=
  (List.range (dimZ - 1)).flatMap (fun i =>
    (List.range dimX).flatMap (fun j =>
      (List.range 2).map (fun k => j + dimX * (i + k))))

/-- `Water::setupMesh`: push the vertex and index data onto the member
vectors, then upload them whole with `glBufferData` into the owned
buffers. -/
noncomputable def setupMesh (wa : Water) : Water :=
  let vs := wa.vertices ++ meshVertices wa
  let ixs := wa.indices ++ meshIndices wa.pDimX wa.pDimZ
  { wa with vertices := vs, indices := ixs, vboData := vs, eboData := ixs }

/-- `Water::updateMesh`: clear `vertices` and `indices`, rebuild the
vertex vector only, and overwrite the front of the vertex buffer with
`glBufferSubData` (offset 0, `vertices.size()` entries).  The element
buffer is not written. -/
noncomputable def updateMesh (wa : Water) : Water :=
  let cleared := { wa with vertices := ([] : List ℝ), indices := ([] : List ℕ) }
  let vs := meshVertices cleared
  { cleared with vertices := vs, vboData := vs ++ cleared.vboData.drop vs.length }

/-- `Water::updateTime`: `internalTime += dT`, unconditionally. -/
def updateTime (wa : Water) (dT : ℝ) : Water :=
  { wa with internalTime := wa.internalTime + dT }

/-- The body of `Water::Water`: initialize the fields from the argument
list; when `dir && rnd`, draw the four wave-parameter vectors (the k-th
`rand()` call returns `u k`; each loop iteration consumes five draws in
source order A, w, D.x, D.y, S), set `internalTime = 0` and run
`setupMesh`.  On any other mode nothing is initialized (`internalTime`,
uninitialized in the source, is modelled as 0). -/
noncomputable def waterInit (px pz pw pl : ℤ) (pdimx pdimz : ℕ) (mA : ℝ)
    (mI : ℕ) (dir rnd anim : Bool) (u : ℕ → ℝ) : Water :=
  let base : Water :=
    { pX := px, pZ := pz, pW := pw, pL := pl, pDimX := pdimx, pDimZ := pdimz,
      maxA := mA, maxI := mI, directional := dir, rounded := rnd,
      animated := anim, internalTime := 0,
      Ai := [], wi := [], Di := [], Si := [],
      vertices := [], indices := [], vboData := [], eboData := [] }
  if dir && rnd then
    setupMesh { base with
      Ai := (List.range mI).map (fun i => randFloat (u (5 * i)) mA),
      wi := (List.range mI).map (fun i =>
        randFloat (u (5 * i + 1)) MAXFREQ * (1 / 2) + MAXFREQ * (1 / 2)),
      Di := (List.range mI).map (fun i =>
        (randFloat (u (5 * i + 2)) 1 * 2 - 1, randFloat (u (5 * i + 3)) 1 * 2 - 1)),
      Si := (List.range mI).map (fun i =>
        randFloat (u (5 * i + 4)) MAXSPED * (1 / 2) + MAXFREQ * (1 / 2)) }
  else base

/-- `Water::Water` seen through the construction-error channel the
specification calls for: the source constructor has no failure path and
always yields the object. -/
noncomputable def mkWater (px pz pw pl : ℤ) (pdimx pdimz : ℕ) (mA : ℝ)
    (mI : ℕ) (dir rnd anim : Bool) (u : ℕ → ℝ) : Except String Water :=
  Except.ok (waterInit px pz pw pl pdimx pdimz mA mI dir rnd anim u)

/-- `Water::draw`: the sequence of `glDrawElements(GL_TRIANGLE_STRIP, ...)`
calls, each recorded as (first index position, index count): the loop
issues, for `i < pDimZ - 1`, a draw of `pDimX` indices starting at byte
offset `sizeof(unsigned int) * pDimX * i`, i.e. index position
`pDimX * i`. -/
def drawCalls (dimX dimZ : ℕ) : List (ℕ × ℕ) :=
  (List.range (dimZ - 1)).map (fun i => (dimX * i, dimX))

/-- Modelled from the spec: the draw layout of the specification's draw
contract — `(Nz − 1)` strips, strip `i` covering the `2 * Nx` index
positions starting at `Nx * 2 * i`. -/
def specDrawCalls (dimX dimZ : ℕ) : List (ℕ × ℕ) :=
  (List.range (dimZ - 1)).map (fun i => (dimX * 2 * i, 2 * dimX))

/-- C's cast of a floating value to `int`: truncation toward zero. -/
noncomputable def rtrunc (x : ℝ) : ℤ := if 0 ≤ x then ⌊x⌋ else ⌈x⌉

/-- The byte `Kernel::start` stores for one normal component `v`:
`(unsigned char)((v / 2 + 0.5) * 256)`, the conversion truncating and
narrowing modulo 256. -/
noncomputable def encodeByte (v : ℝ) : ℕ :=
  ((rtrunc ((v / 2 + 1 / 2) * 256)).emod 256).toNat

/-- The three bytes `Kernel::start` stores for texel `(i, j)` of the
NormalMap: the channel-wise encoding of `water->N(x, z, 0)` at
`x = pX - pW / 2 + (float)i * pW / pdimX`,
`z = pZ - pL / 2 + (float)j * pL / pdimZ`. -/
noncomputable def normalBytes (wa : Water) (px pz pw pl : ℤ)
    (pdimX pdimZ : ℕ) (i j : ℕ) : List ℕ :=
  let x := sampleX px pw pdimX i
  let z := sampleX pz pl pdimZ j
  [encodeByte (N wa x z 0).1, encodeByte (N wa x z 0).2.1,
   encodeByte (N wa x z 0).2.2]

/-- The `data` array of `Kernel::start` (the NormalMap): for each
`i < pdimX`, `j < pdimZ`, the three bytes of `normalBytes`, written at
offsets `i * pdimZ * 3 + j * 3 + 0, 1, 2`. -/
noncomputable def normalMapData (wa : Water) (px pz pw pl : ℤ)
    (pdimX pdimZ : ℕ) : List ℕ :=
  (List.range pdimX).flatMap (fun i =>
    (List.range pdimZ).flatMap (fun j => normalBytes wa px pz pw pl pdimX pdimZ i j))

/-- The byte `Kernel::start` stores into all three channels of texel
`(i, j)` of the `refract` array (the CausticTexture):
`distX = (float)abs(centerX - i) / pdimX * 2` with `centerX = pdimX / 2`
(C integer division), likewise `distY`;
`distance = sqrt(distX² + distY²)`;
`val = (1 - distance > 0) ? (int)((1.0f - 2 * distance) * 256) : 0`;
stored as `(unsigned char)val`, i.e. modulo 256. -/
noncomputable def causticByte (pdimX pdimZ : ℕ) (i j : ℕ) : ℕ :=
  let cX : ℤ := (pdimX / 2 : ℕ)
  let cY : ℤ := (pdimZ / 2 : ℕ)
  let distX : ℝ := ((cX - i).natAbs : ℝ) / (pdimX : ℝ) * 2
  let distY : ℝ := ((cY - j).natAbs : ℝ) / (pdimZ : ℝ) * 2
  let distance : ℝ := Real.sqrt (distX * distX + distY * distY)
  let val : ℤ := if 1 - distance > 0 then rtrunc ((1 - 2 * distance) * 256) else 0
  (val.emod 256).toNat

/-- The `refract` array of `Kernel::start`: texel `(i, j)` holds
`causticByte` in all three channels, at offsets
`i * pdimZ * 3 + j * 3 + 0, 1, 2`. -/
noncomputable def refractData (pdimX pdimZ : ℕ) : List ℕ :=
  (List.range pdimX).flatMap (fun i =>
    (List.range pdimZ).flatMap (fun j =>
      [causticByte pdimX pdimZ i j, causticByte pdimX pdimZ i j,
       causticByte pdimX pdimZ i j]))

/-- A concrete one-by-one, waveless, unit-patch construction used to
instantiate theorems: `Water(0, 0, 1, 1, 1, 1, 0, 0, true, true, false)`
with every `rand()` draw 0. -/
noncomputable def sampleWater : Water :=
  waterInit 0 0 1 1 1 1 0 0 true true false (fun _ => 0)

/-- A concrete two-by-two, waveless construction:
`Water(0, 0, 2, 2, 2, 2, 0, 0, true, true, false)` with every `rand()`
draw 0. -/
noncomputable def sampleWater2 : Water :=
  waterInit 0 0 2 2 2 2 0 0 true true false (fun _ => 0)

/-- The construction `Kernel::start` performs —
`Water(0, 0, 50, 50, 500, 500, 0.1f, 20, true, true, false)` — with every
`rand()` draw 0. -/
noncomputable def kernelWater : Water :=
  waterInit 0 0 50 50 500 500 (1 / 10) 20 true true false (fun _ => 0)

/-! Helper lemmas: indexing into the row-major arrays the nested loops
build, and the range of `randFloat`. -/

theorem range_flatMap_length {α : Type} (g : ℕ → List α) (c n : ℕ)
    (hg : ∀ m, (g m).length = c) :
    ((List.range n).flatMap g).length = n * c := by
  induction n with
  | zero => simp
  | succ n ih =>
    rw [List.range_succ, List.flatMap_append]
    simp [ih, hg, Nat.succ_mul]

theorem range_flatMap_getElem {α : Type} :
    ∀ (i : ℕ) (g : ℕ → List α) (c n k : ℕ), (∀ m, (g m).length = c) →
      i < n → k < c →
      ((List.range n).flatMap g)[i * c + k]? = (g i)[k]? := by
  intro i
  induction i with
  | zero =>
    intro g c n k hg hi hk
    obtain ⟨n', rfl⟩ : ∃ n', n = n' + 1 := ⟨n - 1, by omega⟩
    rw [List.range_succ_eq_map, List.flatMap_cons, Nat.zero_mul, Nat.zero_add,
      List.getElem?_append]
    rw [if_pos (by rw [hg 0]; exact hk)]
  | succ i ih =>
    intro g c n k hg hi hk
    obtain ⟨n', rfl⟩ : ∃ n', n = n' + 1 := ⟨n - 1, by omega⟩
    rw [List.range_succ_eq_map, List.flatMap_cons, List.flatMap_map]
    have hidx : (i + 1) * c + k = (g 0).length + (i * c + k) := by
      rw [hg 0]; ring
    rw [hidx, List.getElem?_append_right (Nat.le_add_right _ _),
      Nat.add_sub_cancel_left]
    exact ih (fun a => g (a + 1)) c n' k (fun m => hg (m + 1)) (by omega) hk

theorem grid_flatMap_getElem {α : Type} (g : ℕ → ℕ → List α) (a b c : ℕ)
    (hg : ∀ p q, (g p q).length = c) (i j k : ℕ) (hi : i < a) (hj : j < b)
    (hk : k < c) :
    ((List.range a).flatMap
      (fun p => (List.range b).flatMap (g p)))[(i * b + j) * c + k]? =
      (g i j)[k]? := by
  have hblock : ∀ p, ((List.range b).flatMap (g p)).length = b * c :=
    fun p => range_flatMap_length (g p) c b (hg p)
  have hidx : (i * b + j) * c + k = i * (b * c) + (j * c + k) := by ring
  have hjk : j * c + k < b * c := by
    calc j * c + k < j * c + c := by omega
      _ = (j + 1) * c := by ring
      _ ≤ b * c := Nat.mul_le_mul_right c (by omega)
  rw [hidx,
    range_flatMap_getElem i (fun p => (List.range b).flatMap (g p)) (b * c) a
      (j * c + k) hblock hi hjk]
  exact range_flatMap_getElem j (g i) c b k (hg i) hj hk

theorem randFloat_bounds (r x : ℝ) (hr : 0 ≤ r) (hR : r ≤ RAND_MAX)
    (hx : 0 ≤ x) : 0 ≤ randFloat r x ∧ randFloat r x ≤ x := by
  unfold randFloat
  rcases eq_or_lt_of_le hx with h0 | hpos
  · simp [← h0]
  · have hRM : (0 : ℝ) < RAND_MAX := by norm_num [RAND_MAX]
    have hq : 0 < RAND_MAX / x := div_pos hRM hpos
    refine ⟨div_nonneg hr hq.le, ?_⟩
    rw [div_le_iff₀ hq]
    have hc : x * (RAND_MAX / x) = RAND_MAX := by
      field_simp
    rw [hc]; exact hR

theorem meshVertices_getElem (wa : Water) (i j k : ℕ) (hi : i < wa.pDimX)
    (hj : j < wa.pDimZ) (hk : k < 6) :
    (meshVertices wa)[(i * wa.pDimZ + j) * 6 + k]? = (vertexFloats wa i j)[k]? := by
  rw [meshVertices]
  exact grid_flatMap_getElem (vertexFloats wa) wa.pDimX wa.pDimZ 6
    (fun p q => rfl) i j k hi hj hk

theorem normalMapData_getElem (wa : Water) (px pz pw pl : ℤ)
    (pdimX pdimZ i j k : ℕ) (hi : i < pdimX) (hj : j < pdimZ) (hk : k < 3) :
    (normalMapData wa px pz pw pl pdimX pdimZ)[(i * pdimZ + j) * 3 + k]? =
      (normalBytes wa px pz pw pl pdimX pdimZ i j)[k]? := by
  rw [normalMapData]
  exact grid_flatMap_getElem (normalBytes wa px pz pw pl pdimX pdimZ)
    pdimX pdimZ 3 (fun p q => rfl) i j k hi hj hk

theorem refractData_getElem (pdimX pdimZ i j k : ℕ) (hi : i < pdimX)
    (hj : j < pdimZ) (hk : k < 3) :
    (refractData pdimX pdimZ)[(i * pdimZ + j) * 3 + k]? =
      some (causticByte pdimX pdimZ i j) := by
  rw [refractData]
  rw [grid_flatMap_getElem
    (fun p q => [causticByte pdimX pdimZ p q, causticByte pdimX pdimZ p q,
      causticByte pdimX pdimZ p q]) pdimX pdimZ 3 (fun p q => rfl) i j k hi hj hk]
  interval_cases k <;> rfl

theorem encodeByte_one : encodeByte 1 = 0 := by
  have h : ((1 : ℝ) / 2 + 1 / 2) * 256 = ((256 : ℤ) : ℝ) := by norm_num
  rw [encodeByte, h, rtrunc, if_pos (by norm_num), Int.floor_intCast]
  decide

theorem causticByte_center : causticByte 500 500 250 250 = 0 := by
  rw [causticByte]
  have hX : ((((500 / 2 : ℕ) : ℤ) - (250 : ℕ)).natAbs : ℝ) / ((500 : ℕ) : ℝ) * 2 = 0 := by
    norm_num
  rw [hX]
  have hs : Real.sqrt ((0 : ℝ) * 0 + 0 * 0) = 0 := by
    norm_num [Real.sqrt_zero]
  rw [hs, if_pos (by norm_num)]
  have h256 : ((1 : ℝ) - 2 * 0) * 256 = ((256 : ℤ) : ℝ) := by norm_num
  rw [h256, rtrunc, if_pos (by norm_num), Int.floor_intCast]
  decide

theorem causticByte_near_center : causticByte 500 500 250 251 = 253 := by
  rw [causticByte]
  have hX : ((((500 / 2 : ℕ) : ℤ) - (250 : ℕ)).natAbs : ℝ) / ((500 : ℕ) : ℝ) * 2 = 0 := by
    norm_num
  have hY : ((((500 / 2 : ℕ) : ℤ) - (251 : ℕ)).natAbs : ℝ) / ((500 : ℕ) : ℝ) * 2 = 1 / 250 := by
    norm_num
  rw [hX, hY]
  have hs : Real.sqrt ((0 : ℝ) * 0 + 1 / 250 * (1 / 250)) = 1 / 250 := by
    rw [show (0 : ℝ) * 0 + 1 / 250 * (1 / 250) = (1 / 250) ^ 2 by ring]
    exact Real.sqrt_sq (by norm_num)
  rw [hs, if_pos (by norm_num)]
  have hfl : rtrunc (((1 : ℝ) - 2 * (1 / 250)) * 256) = 253 := by
    rw [rtrunc, if_pos (by norm_num), Int.floor_eq_iff]
    constructor <;> norm_num
  rw [hfl]
  decide

/-! The claims. -/

/-- C1: `Water::draw` does issue `pDimZ - 1` triangle-strip draws, but the
i-th draw consumes only `pDimX` indices starting at index position
`pDimX * i` — not the `2 * pDimX` indices at positions
`[pDimX * 2 * i, pDimX * 2 * (i + 1))` of the index buffer that the draw
contract states and that the construction-time index layout (two rows of
`pDimX` indices per strip) requires.  Evaluated at a 2 × 2 grid: the code
issues one draw of 2 indices at position 0 where the contract demands one
draw of 4 indices at position 0, and the 4-entry index buffer is only
half consumed. -/
theorem C1_drawCalls_eval :
    (drawCalls 2 2).length = 2 - 1 ∧ drawCalls 2 2 = [(0, 2)] ∧
    specDrawCalls 2 2 = [(0, 4)] ∧ (meshIndices 2 2).length = 4 :=
  ⟨rfl, rfl, rfl, rfl⟩

/-- C6 counterexample: at the 2 × 2 waveless construction, the index
sequence built at construction is `[0, 2, 1, 3]`, but after `updateMesh`
the stored index sequence is `[]` — `updateMesh` clears it and never
rebuilds it, so it does not equal the construction-time sequence. -/
theorem C6_updateMesh_clears_indices_cex :
    sampleWater2.indices = [0, 2, 1, 3] ∧
    (updateMesh sampleWater2).indices = [] ∧
    ([] : List ℕ) ≠ [0, 2, 1, 3] := by
  refine ⟨rfl, rfl, by simp⟩

/-- C6 amended: `updateMesh` empties the CPU-side index sequence (the
`indices` vector) and leaves the GPU-side index buffer uploaded at
construction untouched. -/
theorem C6_updateMesh_indices :
    ∀ wa : Water, (updateMesh wa).indices = [] ∧
      (updateMesh wa).eboData = wa.eboData :=
  fun _ => ⟨rfl, rfl⟩

/-- C9 counterexample: advancing the clock of the 2 × 2 construction
(whose time is 0) by `dt = -1 < 0` changes the time to `-1`; no
"invalid time step" error exists in `Water::updateTime` and the time does
change. -/
theorem C9_negative_dt_cex :
    sampleWater2.internalTime = 0 ∧
    (updateTime sampleWater2 (-1)).internalTime = -1 ∧ (-1 : ℝ) ≠ 0 := by
  refine ⟨rfl, ?_, by norm_num⟩
  show sampleWater2.internalTime + (-1) = -1
  show (0 : ℝ) + (-1) = -1
  norm_num

/-- C9 amended: `Water::updateTime` performs `t ← t + dt` for every `dt`,
negative values included; no error is signaled and no value of `dt` is
rejected. -/
theorem C9_advance_unchecked :
    ∀ (wa : Water) (dT : ℝ),
      (updateTime wa dT).internalTime = wa.internalTime + dT :=
  fun _ _ => rfl

/-- C10: every index pushed at construction — `j + pDimX * (i + k)` for
`i < pDimZ - 1`, `j < pDimX`, `k < 2` — is strictly below
`pDimX * pDimZ`, and the vertex data holds exactly `pDimX * pDimZ`
vertices of six floats each, so no index references a nonexistent
vertex. -/
theorem C10_indices_in_bounds (wa : Water) (hx : 1 ≤ wa.pDimX)
    (hz : 1 ≤ wa.pDimZ) (n : ℕ) (hn : n ∈ meshIndices wa.pDimX wa.pDimZ) :
    n < wa.pDimX * wa.pDimZ ∧
    (meshVertices wa).length = wa.pDimX * wa.pDimZ * 6 := by
  constructor
  · simp only [meshIndices, List.mem_flatMap, List.mem_map,
      List.mem_range] at hn
    obtain ⟨i, hi, j, hj, k, hk, rfl⟩ := hn
    calc j + wa.pDimX * (i + k) < wa.pDimX + wa.pDimX * (i + k) := by omega
      _ = wa.pDimX * (i + k + 1) := by ring
      _ ≤ wa.pDimX * wa.pDimZ := Nat.mul_le_mul_left _ (by omega)
  · rw [meshVertices,
      range_flatMap_length (fun i => (List.range wa.pDimZ).flatMap
          (fun j => vertexFloats wa i j)) (wa.pDimZ * 6) wa.pDimX
        (fun i => range_flatMap_length (fun j => vertexFloats wa i j) 6
          wa.pDimZ (fun j => rfl)),
      Nat.mul_assoc]

/-- C10 witness: the 2 × 2 construction, index 0 of its index buffer. -/
theorem C10_indices_in_bounds_witness :
    1 ≤ sampleWater2.pDimX ∧ 1 ≤ sampleWater2.pDimZ ∧
    (0 : ℕ) ∈ meshIndices sampleWater2.pDimX sampleWater2.pDimZ ∧
    ((0 : ℕ) < sampleWater2.pDimX * sampleWater2.pDimZ ∧
      (meshVertices sampleWater2).length =
        sampleWater2.pDimX * sampleWater2.pDimZ * 6) := by
  have h1 : 1 ≤ sampleWater2.pDimX := by decide
  have h2 : 1 ≤ sampleWater2.pDimZ := by decide
  have h0 : (0 : ℕ) ∈ meshIndices sampleWater2.pDimX sampleWater2.pDimZ := by
    decide
  exact ⟨h1, h2, h0, C10_indices_in_bounds sampleWater2 h1 h2 0 h0⟩

/-- C3 counterexample: constructing with the unsupported mode
`(directional = false, rounded = true)` — otherwise the parameters
`Kernel::start` uses — signals nothing and aborts nothing: the
constructor returns the object, whose wave vectors and mesh are simply
left empty. -/
theorem C3_no_error_cex :
    mkWater 0 0 50 50 500 500 (1 / 10) 20 false true false (fun _ => 0) =
      Except.ok
        (waterInit 0 0 50 50 500 500 (1 / 10) 20 false true false
          (fun _ => 0)) ∧
    (waterInit 0 0 50 50 500 500 (1 / 10) 20 false true false
      (fun _ => 0)).Ai = [] ∧
    (waterInit 0 0 50 50 500 500 (1 / 10) 20 false true false
      (fun _ => 0)).vertices = [] ∧
    (waterInit 0 0 50 50 500 500 (1 / 10) 20 false true false
      (fun _ => 0)).indices = [] :=
  ⟨rfl, rfl, rfl, rfl⟩

/-- C3 amended: for every construction request whose wave mode is not
(directional, rounded), construction signals no error and does not abort:
it silently returns an object whose wave-parameter vectors, vertex vector
and index vector are all empty (no mesh is set up). -/
theorem C3_unsupported_mode_silent (px pz pw pl : ℤ) (pdimx pdimz : ℕ)
    (mA : ℝ) (mI : ℕ) (dir rnd anim : Bool) (u : ℕ → ℝ)
    (h : ¬(dir = true ∧ rnd = true)) :
    mkWater px pz pw pl pdimx pdimz mA mI dir rnd anim u =
      Except.ok (waterInit px pz pw pl pdimx pdimz mA mI dir rnd anim u) ∧
    (waterInit px pz pw pl pdimx pdimz mA mI dir rnd anim u).Ai = [] ∧
    (waterInit px pz pw pl pdimx pdimz mA mI dir rnd anim u).wi = [] ∧
    (waterInit px pz pw pl pdimx pdimz mA mI dir rnd anim u).Di = [] ∧
    (waterInit px pz pw pl pdimx pdimz mA mI dir rnd anim u).Si = [] ∧
    (waterInit px pz pw pl pdimx pdimz mA mI dir rnd anim u).vertices = [] ∧
    (waterInit px pz pw pl pdimx pdimz mA mI dir rnd anim u).indices = [] := by
  have hdr : (dir && rnd) = false := by
    cases dir <;> cases rnd <;> simp_all
  refine ⟨rfl, ?_, ?_, ?_, ?_, ?_, ?_⟩ <;>
    simp [waterInit, hdr]

/-- C3 witness: the amended statement at the concrete unsupported request
of the counterexample. -/
theorem C3_unsupported_mode_silent_witness :
    (¬((false : Bool) = true ∧ (true : Bool) = true)) ∧
    (mkWater 0 0 50 50 500 500 (1 / 10) 20 false true false (fun _ => 0) =
        Except.ok
          (waterInit 0 0 50 50 500 500 (1 / 10) 20 false true false
            (fun _ => 0)) ∧
      (waterInit 0 0 50 50 500 500 (1 / 10) 20 false true false
        (fun _ => 0)).Ai = [] ∧
      (waterInit 0 0 50 50 500 500 (1 / 10) 20 false true false
        (fun _ => 0)).wi = [] ∧
      (waterInit 0 0 50 50 500 500 (1 / 10) 20 false true false
        (fun _ => 0)).Di = [] ∧
      (waterInit 0 0 50 50 500 500 (1 / 10) 20 false true false
        (fun _ => 0)).Si = [] ∧
      (waterInit 0 0 50 50 500 500 (1 / 10) 20 false true false
        (fun _ => 0)).vertices = [] ∧
      (waterInit 0 0 50 50 500 500 (1 / 10) 20 false true false
        (fun _ => 0)).indices = []) :=
  ⟨by simp,
    C3_unsupported_mode_silent 0 0 50 50 500 500 (1 / 10) 20 false true false
      (fun _ => 0) (by simp)⟩

/-- C7 counterexample: with a single wave and every `rand()` draw 0 the
constructed `Si` is `[1/2]` — `S₀ = 1/2 = ω_max/2` exceeds
`S_max = MAXSPED = 0.005`, so `S₀ ∉ [ω_max/2, S_max]` (that interval is
empty). -/
theorem C7_S_exceeds_Smax_cex :
    (waterInit 0 0 50 50 500 500 (1 / 10) 1 true true false
      (fun _ => 0)).Si = [1 / 2] ∧
    ¬((1 : ℝ) / 2 ≤ MAXSPED) := by
  constructor
  · simp [waterInit, setupMesh, randFloat, MAXFREQ, List.range_succ]
  · norm_num [MAXSPED]

/-- C7 amended: every phase-speed constant of a constructed wave set lies
in `[ω_max/2, S_max/2 + ω_max/2]` — the upper bound is
`S_max/2 + ω_max/2`, not `S_max`, since the source computes
`randFloat(MAXSPED)*0.5 + MAXFREQ*0.5`. -/
theorem C7_S_range (px pz pw pl : ℤ) (pdimx pdimz : ℕ) (mA : ℝ) (mI : ℕ)
    (anim : Bool) (u : ℕ → ℝ) (hu : ∀ k, 0 ≤ u k ∧ u k ≤ RAND_MAX) (s : ℝ)
    (hs : s ∈ (waterInit px pz pw pl pdimx pdimz mA mI true true anim u).Si) :
    MAXFREQ / 2 ≤ s ∧ s ≤ MAXSPED / 2 + MAXFREQ / 2 := by
  simp only [waterInit, setupMesh, Bool.and_self, if_true, List.mem_map,
    List.mem_range] at hs
  obtain ⟨i, hi, rfl⟩ := hs
  have hb := randFloat_bounds (u (5 * i + 4)) MAXSPED (hu _).1 (hu _).2
    (by norm_num [MAXSPED])
  rw [MAXFREQ, MAXSPED] at *
  constructor <;> nlinarith [hb.1, hb.2]

/-- C7 witness: the single-wave all-zero-draw construction, whose one
phase-speed constant is `1/2`. -/
theorem C7_S_range_witness :
    (∀ k : ℕ, 0 ≤ (fun _ : ℕ => (0 : ℝ)) k ∧
      (fun _ : ℕ => (0 : ℝ)) k ≤ RAND_MAX) ∧
    ((1 : ℝ) / 2 ∈ (waterInit 0 0 50 50 500 500 (1 / 10) 1 true true false
      (fun _ => 0)).Si) ∧
    (MAXFREQ / 2 ≤ (1 : ℝ) / 2 ∧
      (1 : ℝ) / 2 ≤ MAXSPED / 2 + MAXFREQ / 2) := by
  have hu : ∀ k : ℕ, 0 ≤ (fun _ : ℕ => (0 : ℝ)) k ∧
      (fun _ : ℕ => (0 : ℝ)) k ≤ RAND_MAX :=
    fun k => ⟨le_refl 0, by norm_num [RAND_MAX]⟩
  have hmem : (1 : ℝ) / 2 ∈ (waterInit 0 0 50 50 500 500 (1 / 10) 1 true true
      false (fun _ => 0)).Si := by
    simp [waterInit, setupMesh, randFloat, MAXFREQ, List.range_succ]
  exact ⟨hu, hmem,
    C7_S_range 0 0 50 50 500 500 (1 / 10) 1 false (fun _ => 0) hu (1 / 2) hmem⟩

/-- C8: in every constructed wave set (nonnegative `maxA`, `rand()` draws
within the libc contract), every amplitude lies in `[0, maxA]`, every
frequency in `[ω_max/2, ω_max]`, both direction components in `[-1, 1]`,
and every phase-speed constant is at least `ω_max/2`. -/
theorem C8_wave_parameter_bounds (px pz pw pl : ℤ) (pdimx pdimz : ℕ)
    (mA : ℝ) (mI : ℕ) (anim : Bool) (u : ℕ → ℝ) (hA : 0 ≤ mA)
    (hu : ∀ k, 0 ≤ u k ∧ u k ≤ RAND_MAX) :
    (∀ a ∈ (waterInit px pz pw pl pdimx pdimz mA mI true true anim u).Ai,
      0 ≤ a ∧ a ≤ mA) ∧
    (∀ fq ∈ (waterInit px pz pw pl pdimx pdimz mA mI true true anim u).wi,
      MAXFREQ / 2 ≤ fq ∧ fq ≤ MAXFREQ) ∧
    (∀ d ∈ (waterInit px pz pw pl pdimx pdimz mA mI true true anim u).Di,
      (-1 ≤ d.1 ∧ d.1 ≤ 1) ∧ (-1 ≤ d.2 ∧ d.2 ≤ 1)) ∧
    (∀ s ∈ (waterInit px pz pw pl pdimx pdimz mA mI true true anim u).Si,
      MAXFREQ / 2 ≤ s) := by
  refine ⟨?_, ?_, ?_, ?_⟩ <;>
    · intro v hv
      simp only [waterInit, setupMesh, Bool.and_self, if_true, List.mem_map,
        List.mem_range] at hv
      obtain ⟨i, hi, rfl⟩ := hv
      first
      | exact randFloat_bounds (u (5 * i)) mA (hu _).1 (hu _).2 hA
      | · have hb := randFloat_bounds (u (5 * i + 1)) MAXFREQ (hu _).1 (hu _).2
            (by norm_num [MAXFREQ])
          rw [MAXFREQ] at *
          constructor <;> nlinarith [hb.1, hb.2]
      | · have hb2 := randFloat_bounds (u (5 * i + 2)) 1 (hu _).1 (hu _).2
            (by norm_num)
          have hb3 := randFloat_bounds (u (5 * i + 3)) 1 (hu _).1 (hu _).2
            (by norm_num)
          constructor <;> constructor <;> simp only [] <;>
            nlinarith [hb2.1, hb2.2, hb3.1, hb3.2]
      | · have hb := randFloat_bounds (u (5 * i + 4)) MAXSPED (hu _).1 (hu _).2
            (by norm_num [MAXSPED])
          rw [MAXFREQ, MAXSPED] at *
          nlinarith [hb.1, hb.2]

/-- C8 witness: the single-wave all-zero-draw construction with
`maxA = 0.1`. -/
theorem C8_wave_parameter_bounds_witness :
    (0 : ℝ) ≤ 1 / 10 ∧
    (∀ k : ℕ, 0 ≤ (fun _ : ℕ => (0 : ℝ)) k ∧
      (fun _ : ℕ => (0 : ℝ)) k ≤ RAND_MAX) ∧
    ((∀ a ∈ (waterInit 0 0 50 50 500 500 (1 / 10) 1 true true false
        (fun _ => 0)).Ai, 0 ≤ a ∧ a ≤ (1 : ℝ) / 10) ∧
      (∀ fq ∈ (waterInit 0 0 50 50 500 500 (1 / 10) 1 true true false
        (fun _ => 0)).wi, MAXFREQ / 2 ≤ fq ∧ fq ≤ MAXFREQ) ∧
      (∀ d ∈ (waterInit 0 0 50 50 500 500 (1 / 10) 1 true true false
        (fun _ => 0)).Di, (-1 ≤ d.1 ∧ d.1 ≤ 1) ∧ (-1 ≤ d.2 ∧ d.2 ≤ 1)) ∧
      (∀ s ∈ (waterInit 0 0 50 50 500 500 (1 / 10) 1 true true false
        (fun _ => 0)).Si, MAXFREQ / 2 ≤ s)) := by
  have hA : (0 : ℝ) ≤ 1 / 10 := by norm_num
  have hu : ∀ k : ℕ, 0 ≤ (fun _ : ℕ => (0 : ℝ)) k ∧
      (fun _ : ℕ => (0 : ℝ)) k ≤ RAND_MAX :=
    fun k => ⟨le_refl 0, by norm_num [RAND_MAX]⟩
  exact ⟨hA, hu,
    C8_wave_parameter_bounds 0 0 50 50 500 500 (1 / 10) 1 false (fun _ => 0)
      hA hu⟩

/-- C5 counterexample: for the PatchSpec `(0, 0, 1, 1, 1, 1)` (odd width
`W = 1`), the vertex written for grid sample `(0, 0)` has `x = 0`, because
the source computes `pX - pW / 2` in integer arithmetic (`1 / 2 = 0`);
the claimed `x = cx - W/2 + i·W/Nx = -1/2` differs. -/
theorem C5_intdiv_cex :
    sampleWater.vertices[0]? = some 0 ∧
    ((0 : ℝ) ≠ 0 - 1 / 2 + 0 * 1 / 1) := by
  constructor
  · have h := meshVertices_getElem sampleWater 0 0 0 (by decide) (by decide)
      (by decide)
    simp only [Nat.zero_mul, Nat.zero_add, Nat.add_zero] at h
    have h2 : sampleWater.vertices = meshVertices sampleWater := by
      show ([] : List ℝ) ++ meshVertices sampleWater = meshVertices sampleWater
      simp
    rw [h2, h]
    show some (sampleX 0 1 1 0) = some 0
    have ht : Int.tdiv 1 2 = 0 := rfl
    rw [sampleX, ht]
    norm_num
  · norm_num

/-- C5 amended: the vertex written for grid sample `(i, j)` — the six-float
group at position `(i·Nz + j)·6` of the vertex data — has
`x = cx - ⌊W/2⌋ + i·W/Nx` and `z = cz - ⌊L/2⌋ + j·L/Nz`, where `⌊·/2⌋` is
C integer (truncating) division of the integer fields (for even `W`, `L`
this is the claimed `W/2`, `L/2`), and `y = H(x, z, t)` at the object's
current time; both the construction-time build and `updateMesh` write
exactly this data. -/
theorem C5_vertex_layout (wa : Water) (i j : ℕ) (hi : i < wa.pDimX)
    (hj : j < wa.pDimZ) :
    (meshVertices wa)[(i * wa.pDimZ + j) * 6]? =
      some (sampleX wa.pX wa.pW wa.pDimX i) ∧
    (meshVertices wa)[(i * wa.pDimZ + j) * 6 + 1]? =
      some (H wa (sampleX wa.pX wa.pW wa.pDimX i)
        (sampleX wa.pZ wa.pL wa.pDimZ j) wa.internalTime) ∧
    (meshVertices wa)[(i * wa.pDimZ + j) * 6 + 2]? =
      some (sampleX wa.pZ wa.pL wa.pDimZ j) ∧
    (updateMesh wa).vertices = meshVertices wa ∧
    (setupMesh wa).vertices = wa.vertices ++ meshVertices wa := by
  have h0 := meshVertices_getElem wa i j 0 hi hj (by omega)
  have h1 := meshVertices_getElem wa i j 1 hi hj (by omega)
  have h2 := meshVertices_getElem wa i j 2 hi hj (by omega)
  rw [Nat.add_zero] at h0
  refine ⟨?_, ?_, ?_, rfl, rfl⟩
  · rw [h0]; rfl
  · rw [h1]; rfl
  · rw [h2]; rfl

/-- C5 witness: the one-by-one waveless construction at sample (0, 0). -/
theorem C5_vertex_layout_witness :
    (0 < sampleWater.pDimX ∧ 0 < sampleWater.pDimZ) ∧
    ((meshVertices sampleWater)[(0 * sampleWater.pDimZ + 0) * 6]? =
      some (sampleX sampleWater.pX sampleWater.pW sampleWater.pDimX 0) ∧
    (meshVertices sampleWater)[(0 * sampleWater.pDimZ + 0) * 6 + 1]? =
      some (H sampleWater (sampleX sampleWater.pX sampleWater.pW
          sampleWater.pDimX 0)
        (sampleX sampleWater.pZ sampleWater.pL sampleWater.pDimZ 0)
        sampleWater.internalTime) ∧
    (meshVertices sampleWater)[(0 * sampleWater.pDimZ + 0) * 6 + 2]? =
      some (sampleX sampleWater.pZ sampleWater.pL sampleWater.pDimZ 0) ∧
    (updateMesh sampleWater).vertices = meshVertices sampleWater ∧
    (setupMesh sampleWater).vertices =
      sampleWater.vertices ++ meshVertices sampleWater) :=
  ⟨⟨by decide, by decide⟩, C5_vertex_layout sampleWater 0 0 (by decide)
    (by decide)⟩

/-- C4 counterexample: in the NormalMap `Kernel::start` builds, the third
channel byte of texel `(0, 0)` — the encoding of the normal's z component,
which is exactly 1, so its encoded value is exactly 256 — is stored as 0,
not as the saturated 255 the claim states: the conversion to a byte wraps
modulo 256 instead of clamping. -/
theorem C4_z_channel_wraps_cex :
    (normalMapData kernelWater 0 0 50 50 500 500)[2]? = some 0 ∧
    (0 : ℕ) ≠ 255 := by
  have h2 := normalMapData_getElem kernelWater 0 0 50 50 500 500 0 0 2
    (by norm_num) (by norm_num) (by norm_num)
  simp only [Nat.zero_mul, Nat.zero_add] at h2
  refine ⟨?_, by norm_num⟩
  rw [h2]
  show some (encodeByte
    (N kernelWater (sampleX 0 50 500 0) (sampleX 0 50 500 0) 0).2.2) = some 0
  rw [show (N kernelWater (sampleX 0 50 500 0)
    (sampleX 0 50 500 0) 0).2.2 = 1 from rfl, encodeByte_one]

/-- C4 amended: each NormalMap byte equals the toward-zero truncation of
`(component/2 + 0.5)·256` reduced modulo 256 (for the nonnegative
encodings that arise this truncation is the claimed floor); a component
whose encoded value is exactly 256 does not saturate to 255 but wraps to
byte 0 — in particular the z channel, whose component is the constant 1,
stores 0 at every texel. -/
theorem C4_normal_encoding (wa : Water) (px pz pw pl : ℤ)
    (pdimX pdimZ i j : ℕ) (hi : i < pdimX) (hj : j < pdimZ) :
    (normalMapData wa px pz pw pl pdimX pdimZ)[(i * pdimZ + j) * 3]? =
      some (encodeByte
        (N wa (sampleX px pw pdimX i) (sampleX pz pl pdimZ j) 0).1) ∧
    (normalMapData wa px pz pw pl pdimX pdimZ)[(i * pdimZ + j) * 3 + 1]? =
      some (encodeByte
        (N wa (sampleX px pw pdimX i) (sampleX pz pl pdimZ j) 0).2.1) ∧
    (normalMapData wa px pz pw pl pdimX pdimZ)[(i * pdimZ + j) * 3 + 2]? =
      some 0 ∧
    encodeByte 1 = 0 := by
  have h0 := normalMapData_getElem wa px pz pw pl pdimX pdimZ i j 0 hi hj
    (by omega)
  have h1 := normalMapData_getElem wa px pz pw pl pdimX pdimZ i j 1 hi hj
    (by omega)
  have h2 := normalMapData_getElem wa px pz pw pl pdimX pdimZ i j 2 hi hj
    (by omega)
  rw [Nat.add_zero] at h0
  refine ⟨?_, ?_, ?_, encodeByte_one⟩
  · rw [h0]; rfl
  · rw [h1]; rfl
  · rw [h2]
    show some (encodeByte
      (N wa (sampleX px pw pdimX i) (sampleX pz pl pdimZ j) 0).2.2) = some 0
    rw [show (N wa (sampleX px pw pdimX i)
      (sampleX pz pl pdimZ j) 0).2.2 = 1 from rfl, encodeByte_one]

/-- C4 witness: the kernel's NormalMap at texel (0, 0). -/
theorem C4_normal_encoding_witness :
    ((0 : ℕ) < 500) ∧
    ((normalMapData kernelWater 0 0 50 50 500 500)[(0 * 500 + 0) * 3]? =
      some (encodeByte
        (N kernelWater (sampleX 0 50 500 0) (sampleX 0 50 500 0) 0).1) ∧
    (normalMapData kernelWater 0 0 50 50 500 500)[(0 * 500 + 0) * 3 + 1]? =
      some (encodeByte
        (N kernelWater (sampleX 0 50 500 0) (sampleX 0 50 500 0) 0).2.1) ∧
    (normalMapData kernelWater 0 0 50 50 500 500)[(0 * 500 + 0) * 3 + 2]? =
      some 0 ∧
    encodeByte 1 = 0) :=
  ⟨by norm_num, C4_normal_encoding kernelWater 0 0 50 50 500 500 0 0
    (by norm_num) (by norm_num)⟩

/-- C2 counterexample: in the 500 × 500 CausticTexture, the center texel
`(250, 250)` (distance `d = 0`) stores byte 0, while the claimed value
`max(0, floor((1 − 2·0)·256))` is 256 — the truncated 256 wraps modulo 256
on conversion to a byte; moreover the adjacent texel `(250, 251)` stores
253 > 0, so the center texel does not store the largest value. -/
theorem C2_center_wrap_cex :
    (refractData 500 500)[(250 * 500 + 250) * 3]? = some 0 ∧
    max 0 ⌊((1 : ℝ) - 2 * 0) * 256⌋ = 256 ∧
    (refractData 500 500)[(250 * 500 + 251) * 3]? = some 253 ∧
    (0 : ℕ) < 253 := by
  have ha := refractData_getElem 500 500 250 250 0 (by norm_num) (by norm_num)
    (by norm_num)
  have hb := refractData_getElem 500 500 250 251 0 (by norm_num) (by norm_num)
    (by norm_num)
  rw [Nat.add_zero] at ha hb
  refine ⟨?_, ?_, ?_, by norm_num⟩
  · rw [ha, causticByte_center]
  · norm_num
  · rw [hb, causticByte_near_center]

/-- C2 amended: every one of the three channel bytes of texel `(i, j)` of
the CausticTexture equals `causticByte`: the toward-zero truncation of
`(1 − 2d)·256` reduced modulo 256 when `d < 1`, and 0 when `d ≥ 1` — so
texels with `d ≥ 1` (not `d ≥ 0.5`) store zero, and the center texel,
whose encoded value is 256, stores 0 rather than the largest value. -/
theorem C2_caustic_texels (pdimX pdimZ i j k : ℕ) (hi : i < pdimX)
    (hj : j < pdimZ) (hk : k < 3) :
    (refractData pdimX pdimZ)[(i * pdimZ + j) * 3 + k]? =
      some (causticByte pdimX pdimZ i j) :=
  refractData_getElem pdimX pdimZ i j k hi hj hk

/-- C2 witness: the one-by-one caustic texture at texel (0, 0),
channel 0. -/
theorem C2_caustic_texels_witness :
    ((0 : ℕ) < 1) ∧
    (refractData 1 1)[(0 * 1 + 0) * 3 + 0]? = some (causticByte 1 1 0 0) :=
  ⟨by norm_num, C2_caustic_texels 1 1 0 0 0 (by norm_num) (by norm_num)
    (by norm_num)⟩

end GG1C2
